import Mathlib

/-!
Verification of the batch audio-conversion driver in `audio_converter.py`.

The embedding models, from the source:
* the output-path resolution (`pathlib.Path.stem` / `os.path.join` semantics,
  restricted to POSIX-style `/` separators),
* the ffmpeg argv construction of `convert_file` (lines 443–518),
* the stderr failure classification of `convert_file` (lines 568–597),
* the sequential batch loop `conversion_worker` (lines 623–683) with its
  cooperative cancellation flag, optional source deletion and progress events.

Numeric progress percentages are modelled in `ℚ` (the two-file values asserted
by the spec, 50.0 and 100.0, are exactly representable, so no float rounding is
observable at the granularity of the claims).  Byte strings from the encoder
stderr are modelled as already-decoded `String`s; `str.lower()` is modelled by
ASCII lowering, which coincides with Python on the ASCII substrings the
classifier inspects.
-/

/-- Python `pat in s` substring test, on char lists: does `hay` start with `pat`? -/
def listStartsWith : List Char → List Char → Bool
  | [], _ => true
  | _ :: _, [] => false
  | p :: ps, c :: cs => p == c && listStartsWith ps cs

/-- Python `pat in hay` substring containment on char lists. -/
def listContains (pat : List Char) : List Char → Bool
  | [] => pat.isEmpty
  | c :: cs => listStartsWith pat (c :: cs) || listContains pat cs

/-- Python `pat in s` on strings. -/
def hasSub (pat s : String) : Bool := listContains pat.data s.data

/-- Python `str.split(sep)` for a one-character separator: always returns at
least one (possibly empty) piece, and empty pieces are kept. -/
def splitOnChar (sep : Char) : List Char → List (List Char)
  | [] => [[]]
  | c :: cs =>
    if c == sep then [] :: splitOnChar sep cs
    else
      match splitOnChar sep cs with
      | [] => [[c]]
      | l :: ls => (c :: l) :: ls

/-- The whitespace characters stripped by Python `str.strip()` (ASCII range). -/
def isPySpace (c : Char) : Bool :=
  c == ' ' || c == '\t' || c == '\n' || c == '\r' || c == '\x0b' || c == '\x0c'

/-- Python `str.strip()` on char lists. -/
def pyStripL (l : List Char) : List Char :=
  ((l.dropWhile isPySpace).reverse.dropWhile isPySpace).reverse

/-- Python `str.lower()`, restricted to ASCII letters. -/
def lowerL (l : List Char) : List Char := l.map Char.toLower

/-- Model of `pathlib.Path(p).name`: the last nonempty `/`-separated component. -/
def pyName (path : List Char) : List Char :=
  ((splitOnChar '/' path).filter (fun comp => !comp.isEmpty)).getLastD []

/-- Python `str.rfind(c)` (as an `Option` index instead of `-1`). -/
def rfindChar (c : Char) (l : List Char) : Option Nat :=
  match l.reverse.findIdx? (fun x => x == c) with
  | some j => some (l.length - 1 - j)
  | none => none

/-- Model of `pathlib.Path(p).stem`: the name without its last suffix.  CPython keeps
the whole name when the last dot is at index 0 or at the very end. -/
def pyStem (path : List Char) : List Char :=
  let n := pyName path
  match rfindChar '.' n with
  | some i => if 0 < i ∧ i < n.length - 1 then n.take i else n
  | none => n

/-- POSIX `os.path.join(a, b)` for a single right operand. -/
def osPathJoin (a b : List Char) : List Char :=
  if b.head? = some '/' then b
  else if a.isEmpty then b
  else if a.getLast? = some '/' then a ++ b
  else a ++ '/' :: b

/-- Source line 449: `os.path.join(self.output_dir, input_path.stem + '.' + output_format)`. -/
def resolvedOutput (outputDir inputFile outputFormat : String) : String :=
  String.mk (osPathJoin outputDir.data (pyStem inputFile.data ++ '.' :: outputFormat.data))

/-- The per-format branch of `convert_file` (source lines 458–516): codec and
quality arguments appended after the common argv head.  The quality tier is the
combobox label string; the source dispatches on the substrings `高质量`,
`中等质量` and `无损`. -/
def formatArgs (outputFormat quality : String) : List String :=
  if outputFormat = "mp3" then
    ["-codec:a", "libmp3lame"] ++
      (if hasSub "高质量" quality then ["-b:a", "192k"]
       else if hasSub "中等质量" quality then ["-b:a", "128k"]
       else ["-b:a", "64k"])
  else if outputFormat = "flac" then
    ["-codec:a", "flac"] ++
      (if !hasSub "无损" quality then
        (if hasSub "高质量" quality then ["-ar", "48000"] else ["-ar", "44100"])
       else [])
  else if outputFormat = "wav" then
    ["-codec:a", "pcm_s16le"] ++
      (if !hasSub "无损" quality then
        (if hasSub "高质量" quality then ["-ar", "48000"] else ["-ar", "44100"])
       else [])
  else if outputFormat = "ogg" then
    ["-codec:a", "libvorbis"] ++
      (if hasSub "高质量" quality then ["-b:a", "256k"]
       else if hasSub "中等质量" quality then ["-b:a", "192k"]
       else ["-b:a", "128k"])
  else if outputFormat = "m4a" then
    ["-vn", "-f", "mov", "-codec:a", "aac"] ++
      (if hasSub "高质量" quality then ["-b:a", "256k"]
       else if hasSub "中等质量" quality then ["-b:a", "192k"]
       else ["-b:a", "128k"])
  else if outputFormat = "aac" then
    ["-codec:a", "aac"] ++
      (if hasSub "高质量" quality then ["-b:a", "192k"]
       else if hasSub "中等质量" quality then ["-b:a", "128k"]
       else ["-b:a", "64k"])
  else if outputFormat = "wma" then
    ["-codec:a", "wmav2"] ++
      (if hasSub "高质量" quality then ["-b:a", "192k"]
       else if hasSub "中等质量" quality then ["-b:a", "128k"]
       else ["-b:a", "64k"])
  else []

/-- Source lines 452 and 518: argv head `['ffmpeg', '-y', '-i', input, '-vn']`,
then the per-format arguments, then the output file. -/
def buildCmd (inputFile outputFile outputFormat quality : String) : List String :=
  ["ffmpeg", "-y", "-i", inputFile, "-vn"] ++ formatArgs outputFormat quality ++ [outputFile]

/-- Outcome of the `subprocess.run` call: normal exit with captured (decoded)
stderr, `subprocess.TimeoutExpired`, or any other exception (e.g. the encoder
binary could not be started), carrying `str(e)`. -/
inductive ProcResult where
  | exited (returncode : Int) (stderr : String)
  | timedOut
  | raised (msg : String)

/-- One external-encoder invocation: the argv and the wall-clock timeout passed
to `subprocess.run` (source lines 550–566, `timeout=300`). -/
structure EncoderInvocation where
  argv : List String
  timeoutSeconds : Nat
deriving DecidableEq

/-- The invocation `convert_file` issues for a given job. -/
def invocationOf (outputDir outputFormat quality inputFile : String) : EncoderInvocation :=
  { argv := buildCmd inputFile (resolvedOutput outputDir inputFile outputFormat)
      outputFormat quality
  , timeoutSeconds := 300 }

/-- The stderr classification of `convert_file` (source lines 570–592).
Returns `none` when the classification itself raises: the list comprehension
`[l for l in error_msg.split('\n') if l.strip()][-1]` indexes an empty list
whenever stderr is nonempty but consists only of whitespace, raising
`IndexError` (which the enclosing generic handler turns into an
`错误: list index out of range` result). -/
def classifyError (errorMsg : String) : Option String :=
  let e := errorMsg.data
  if listContains "Invalid data".data e then some "输入文件数据无效或损坏"
  else if listContains "Permission denied".data e then some "权限被拒绝，无法写入文件"
  else if listContains "No space left".data e then some "磁盘空间不足"
  else if listContains "Error".data e then
    match (splitOnChar '\n' e).find? (fun line =>
        listContains "Error".data line && !(listContains "ffmpeg".data (lowerL line))) with
    | some line => some ("FFmpeg错误: " ++ String.mk (pyStripL line))
    | none => some ("FFmpeg错误: " ++ String.mk (pyStripL ((splitOnChar '\n' e).getLastD [])))
  else if e.isEmpty then some "转换失败: 未知错误"
  else
    match ((splitOnChar '\n' e).filter (fun l => !(pyStripL l).isEmpty)).getLast? with
    | some l => some ("转换失败: " ++ String.mk l)
    | none => none

/-- Model of `convert_file` (source lines 443–597), with the subprocess abstracted as a
function from the prepared invocation to its result.  Returns the
`(success, message)` pair of the source; on success the message is the
resolved output path. -/
def convert_file (proc : EncoderInvocation → ProcResult)
    (outputDir outputFormat quality inputFile : String) : Bool × String :=
  let outputFile := resolvedOutput outputDir inputFile outputFormat
  match proc (invocationOf outputDir outputFormat quality inputFile) with
  | ProcResult.exited code stderr =>
    if code = 0 then (true, outputFile)
    else
      match classifyError stderr with
      | some msg => (false, msg)
      | none => (false, "错误: list index out of range")
  | ProcResult.timedOut => (false, "转换超时")
  | ProcResult.raised m => (false, "错误: " ++ m)

/-- The output formats offered by the format combobox (source line 186). -/
def supportedFormats : List String := ["mp3", "flac", "wav", "ogg", "m4a", "aac", "wma"]

/-- The quality-tier labels the GUI offers for each format
(`on_format_change`, source lines 300–332). -/
def formatTiers (fmt : String) : List String :=
  if fmt = "mp3" then ["高质量 (192 kbps)", "中等质量 (128 kbps)", "低质量 (64 kbps)"]
  else if fmt = "m4a" then ["高质量 (256 kbps)", "中等质量 (192 kbps)", "低质量 (128 kbps)"]
  else if fmt = "aac" then ["高质量 (192 kbps)", "中等质量 (128 kbps)", "低质量 (64 kbps)"]
  else if fmt = "wma" then ["高质量 (192 kbps)", "中等质量 (128 kbps)", "低质量 (64 kbps)"]
  else if fmt = "flac" || fmt = "wav" then ["无损 (原始音质)", "高质量 (48kHz)", "标准质量 (44.1kHz)"]
  else if fmt = "ogg" then ["高质量 (256 kbps)", "中等质量 (192 kbps)", "低质量 (128 kbps)"]
  else []

/-- Every quality-tier label appearing anywhere in the GUI. -/
def tierVocab : List String :=
  ["高质量 (192 kbps)", "中等质量 (128 kbps)", "低质量 (64 kbps)",
   "高质量 (256 kbps)", "中等质量 (192 kbps)", "低质量 (128 kbps)",
   "无损 (原始音质)", "高质量 (48kHz)", "标准质量 (44.1kHz)"]

/-- Per-job failure taxonomy of spec §7, with the payloads §4.3 attaches. -/
inductive FailReason where
  | invalidInputData
  | permissionDenied
  | diskFull
  | encoderError (line : String)
  | unknownFailure (line : String)
  | timeout
  | unexpectedError (msg : String)
deriving DecidableEq

/-- The user-visible message each reason produces (the bit-exact strings of the
source that spec §6 requires to be preserved). -/
def renderReason : FailReason → String
  | FailReason.invalidInputData => "输入文件数据无效或损坏"
  | FailReason.permissionDenied => "权限被拒绝，无法写入文件"
  | FailReason.diskFull => "磁盘空间不足"
  | FailReason.encoderError line => "FFmpeg错误: " ++ line
  | FailReason.unknownFailure line => "转换失败: " ++ line
  | FailReason.timeout => "转换超时"
  | FailReason.unexpectedError m => "错误: " ++ m

/-- Modelled from the spec: the §4.3 stderr classification written as a
first-match-wins rule list over the spec's reason taxonomy, with the banner
test made concrete as in the source (a line mentioning `ffmpeg`,
case-insensitively).  Amended in three places where the claim wording is
silent or wrong about the code: (1) when stderr contains `Error` but every
such line mentions `ffmpeg`, the `EncoderError` payload falls back to the last
stderr line; (2) empty stderr yields `UnknownFailure` with the fixed text
`未知错误`; (3) nonempty all-whitespace stderr escapes the classifier as an
`IndexError` and the job becomes `UnexpectedError`. -/
def specClassifyStderr (stderr : String) : FailReason :=
  if hasSub "Invalid data" stderr then FailReason.invalidInputData
  else if hasSub "Permission denied" stderr then FailReason.permissionDenied
  else if hasSub "No space left" stderr then FailReason.diskFull
  else if hasSub "Error" stderr then
    match (splitOnChar '\n' stderr.data).find? (fun line =>
        listContains "Error".data line && !(listContains "ffmpeg".data (lowerL line))) with
    | some line => FailReason.encoderError (String.mk (pyStripL line))
    | none =>
      FailReason.encoderError (String.mk (pyStripL ((splitOnChar '\n' stderr.data).getLastD [])))
  else
    match ((splitOnChar '\n' stderr.data).filter (fun l => !(pyStripL l).isEmpty)).getLast? with
    | some l => FailReason.unknownFailure (String.mk l)
    | none =>
      if stderr.data.isEmpty then FailReason.unknownFailure "未知错误"
      else FailReason.unexpectedError "list index out of range"

/-- What `conversion_worker` records for one attempted job: the `(success,
message)` pair returned by `convert_file`, and — when the job succeeded and the
delete-original box is ticked — whether the `os.remove` attempt succeeded
(`some true`), failed with a logged `删除原文件失败` line (`some false`), or was
never attempted (`none`). -/
structure JobRecord where
  file : String
  ok : Bool
  message : String
  removalOutcome : Option Bool
deriving DecidableEq

/-- The body of one loop iteration of `conversion_worker` (source lines
653–678), with the single-file conversion and the `os.remove` call abstracted
as stubs.  Note the record does not depend on the loop index. -/
def jobRecord (convert : String → Bool × String) (removeOk : String → Bool)
    (deleteOriginal : Bool) (f : String) : JobRecord :=
  { file := f
  , ok := (convert f).1
  , message := (convert f).2
  , removalOutcome :=
      if (convert f).1 && deleteOriginal then some (removeOk f) else none }

/-- The `for i, input_file in enumerate(self.file_list)` loop of
`conversion_worker` (source lines 648–683).  The cooperative cancellation flag
`is_converting` is read once at the top of each iteration and, during a run,
can only flip from true to false; `cancelAfter` is the first iteration index at
which the flag is observed cleared (so `cancelAfter ≥ length files` models a
run that is never cancelled).  Returns the records of the attempted jobs in
order, paired with the emitted progress percentages
`((i + 1) / total_files) * 100`. -/
def workerLoop (convert : String → Bool × String) (removeOk : String → Bool)
    (deleteOriginal : Bool) (total cancelAfter : Nat) :
    Nat → List String → List JobRecord × List ℚ
  | _, [] => ([], [])
  | i, f :: rest =>
    if cancelAfter ≤ i then ([], [])
    else
      let r := jobRecord convert removeOk deleteOriginal f
      let tailResult := workerLoop convert removeOk deleteOriginal total cancelAfter (i + 1) rest
      (r :: tailResult.1, (((i : ℚ) + 1) / (total : ℚ) * 100) :: tailResult.2)

/-- Model of `conversion_worker` over a batch, assuming the run started (nonempty list
accepted by `start_conversion` and writable output directory, both checked
before the loop). -/
def conversion_worker (convert : String → Bool × String) (removeOk : String → Bool)
    (deleteOriginal : Bool) (cancelAfter : Nat) (files : List String) :
    List JobRecord × List ℚ :=
  workerLoop convert removeOk deleteOriginal files.length cancelAfter 0 files

/-- The `converted_files` tally of the worker (incremented exactly on each
successful job, source line 664). -/
def convertedCount (records : List JobRecord) : Nat :=
  (records.filter (fun r => r.ok)).length

/-- Stub encoder invocation that always exits 0 with empty stderr. -/
def stubExitZero : EncoderInvocation → ProcResult := fun _ => ProcResult.exited 0 ""

/-- The app's single-file conversion specialised to the stub encoder, output
directory `out`, mp3 format and its high tier. -/
def stubConvert : String → Bool × String :=
  convert_file stubExitZero "out" "mp3" "高质量 (192 kbps)"

/-! ### Structural lemmas about the worker loop -/

theorem workerLoop_records (convert : String → Bool × String) (removeOk : String → Bool)
    (deleteOriginal : Bool) (total cancelAfter : Nat) :
    ∀ (files : List String) (i : Nat),
      (workerLoop convert removeOk deleteOriginal total cancelAfter i files).1
        = (files.take (cancelAfter - i)).map (jobRecord convert removeOk deleteOriginal) := by
  intro files
  induction files with
  | nil => intro i; simp [workerLoop]
  | cons f rest ih =>
    intro i
    by_cases h : cancelAfter ≤ i
    · simp [workerLoop, h, Nat.sub_eq_zero_of_le h]
    · rw [show cancelAfter - i = (cancelAfter - (i + 1)) + 1 by omega]
      simp [workerLoop, h, List.take_succ_cons, ih (i + 1)]

theorem workerLoop_progress (convert : String → Bool × String) (removeOk : String → Bool)
    (deleteOriginal : Bool) (total cancelAfter : Nat) :
    ∀ (files : List String) (i : Nat),
      (workerLoop convert removeOk deleteOriginal total cancelAfter i files).2
        = (List.range (min (cancelAfter - i) files.length)).map
            (fun j => ((i + j + 1 : ℕ) : ℚ) / (total : ℚ) * 100) := by
  intro files
  induction files with
  | nil => intro i; simp [workerLoop]
  | cons f rest ih =>
    intro i
    by_cases h : cancelAfter ≤ i
    · simp [workerLoop, h, Nat.sub_eq_zero_of_le h]
    · have hca : cancelAfter - i = (cancelAfter - (i + 1)) + 1 := by omega
      rw [hca]
      simp only [workerLoop, if_neg h, List.length_cons, Nat.succ_min_succ,
        List.range_succ_eq_map, List.map_cons, List.map_map, ih (i + 1)]
      congr 1
      · push_cast; ring
      · have hfun : (fun j => ((i + j + 1 : ℕ) : ℚ) / (total : ℚ) * 100) ∘ Nat.succ
            = fun j => ((i + 1 + j + 1 : ℕ) : ℚ) / (total : ℚ) * 100 := by
          funext j
          simp only [Function.comp]
          push_cast
          ring
        rw [hfun]

/-! ### Lemmas about path resolution -/

theorem splitOnChar_not_mem (sep : Char) :
    ∀ (cs : List Char) (l : List Char), l ∈ splitOnChar sep cs → sep ∉ l := by
  intro cs
  induction cs with
  | nil =>
    intro l hl
    simp [splitOnChar] at hl
    simp [hl]
  | cons c cs ih =>
    intro l hl
    by_cases hc : c == sep
    · rw [splitOnChar, if_pos hc] at hl
      rcases List.mem_cons.mp hl with h | h
      · simp [h]
      · exact ih l h
    · rw [splitOnChar, if_neg hc] at hl
      have hcs : c ≠ sep := by simpa using hc
      cases hsp : splitOnChar sep cs with
      | nil =>
        rw [hsp] at hl
        have : l = [c] := by simpa using hl
        subst this
        simp [Ne.symm hcs]
      | cons h0 t =>
        rw [hsp] at hl
        rcases List.mem_cons.mp hl with h | h
        · subst h
          intro hmem
          rcases List.mem_cons.mp hmem with h | h
          · exact hcs h.symm
          · exact ih h0 (by rw [hsp]; exact List.mem_cons_self _ _) h
        · exact ih l (by rw [hsp]; exact List.mem_cons_of_mem _ h)

theorem pyName_not_mem_slash (cs : List Char) : '/' ∉ pyName cs := by
  unfold pyName
  rw [List.getLastD_eq_getLast?]
  cases hq : ((splitOnChar '/' cs).filter (fun comp => !comp.isEmpty)).getLast? with
  | none => simp
  | some a =>
    simp only [Option.getD_some]
    have h' : a ∈ ((splitOnChar '/' cs).filter (fun comp => !comp.isEmpty)).getLast? := by
      rw [hq]; rfl
    obtain ⟨hne, heq⟩ := List.mem_getLast?_eq_getLast h'
    have ha : a ∈ (splitOnChar '/' cs).filter (fun comp => !comp.isEmpty) := by
      rw [heq]; exact List.getLast_mem hne
    exact splitOnChar_not_mem '/' cs a (List.mem_of_mem_filter ha)

theorem pyStem_not_mem_slash (cs : List Char) : '/' ∉ pyStem cs := by
  have hname := pyName_not_mem_slash cs
  unfold pyStem
  cases h : rfindChar '.' (pyName cs) with
  | none => simpa [h] using hname
  | some i =>
    simp only [h]
    split
    · intro hmem
      exact hname (List.take_subset i (pyName cs) hmem)
    · exact hname

theorem osPathJoin_eq (a b : List Char) (ha : a ≠ []) (ha2 : a.getLast? ≠ some '/')
    (hb : b.head? ≠ some '/') : osPathJoin a b = a ++ '/' :: b := by
  unfold osPathJoin
  rw [if_neg hb, if_neg (by simpa using ha), if_neg ha2]

theorem stemDot_head (p f : List Char) : (pyStem p ++ '.' :: f).head? ≠ some '/' := by
  cases h : pyStem p with
  | nil => simp
  | cons c r =>
    have : c ≠ '/' := by
      intro hc
      exact pyStem_not_mem_slash p (by rw [h, hc]; exact List.mem_cons_self _ _)
    simp [this]

/-! ### The classifier bridge -/

theorem classify_renders (e : String) :
    (classifyError e).getD "错误: list index out of range"
      = renderReason (specClassifyStderr e) := by
  unfold classifyError specClassifyStderr
  by_cases h1 : listContains "Invalid data".data e.data
  · simp [h1, hasSub, renderReason]
  by_cases h2 : listContains "Permission denied".data e.data
  · simp [h1, h2, hasSub, renderReason]
  by_cases h3 : listContains "No space left".data e.data
  · simp [h1, h2, h3, hasSub, renderReason]
  by_cases h4 : listContains "Error".data e.data
  · simp only [h1, h2, h3, h4, hasSub, Bool.false_eq_true, if_false, if_true]
    cases hfind : (splitOnChar '\n' e.data).find? (fun line =>
        listContains "Error".data line && !(listContains "ffmpeg".data (lowerL line))) with
    | some line => simp [renderReason]
    | none => simp [renderReason]
  · simp only [h1, h2, h3, h4, hasSub, Bool.false_eq_true, if_false]
    by_cases h5 : e.data.isEmpty
    · have he : e.data = [] := by simpa using h5
      rw [if_pos h5, he]
      decide
    · rw [if_neg h5]
      cases hlast : ((splitOnChar '\n' e.data).filter (fun l => !(pyStripL l).isEmpty)).getLast? with
      | some l => simp [renderReason]
      | none => simp [h5, renderReason]

/-! ### Claim theorems -/

/-- C3: for every supported format and each of its valid quality tiers, the
built argv carries the codec and quality flags of the profile table: mp3, aac
and wma use 192k/128k/64k for high/medium/low; m4a and ogg use 256k/192k/128k;
for flac and wav the lossless tier appends no bitrate or sample-rate flag,
while the non-lossless tiers append a sample-rate flag (48000 Hz for high,
44100 Hz for standard) instead of a bitrate flag. -/
theorem c3_profile_table :
    (∀ i o : String, buildCmd i o "mp3" "高质量 (192 kbps)"
      = ["ffmpeg", "-y", "-i", i, "-vn", "-codec:a", "libmp3lame", "-b:a", "192k", o])
    ∧ (∀ i o : String, buildCmd i o "mp3" "中等质量 (128 kbps)"
      = ["ffmpeg", "-y", "-i", i, "-vn", "-codec:a", "libmp3lame", "-b:a", "128k", o])
    ∧ (∀ i o : String, buildCmd i o "mp3" "低质量 (64 kbps)"
      = ["ffmpeg", "-y", "-i", i, "-vn", "-codec:a", "libmp3lame", "-b:a", "64k", o])
    ∧ (∀ i o : String, buildCmd i o "aac" "高质量 (192 kbps)"
      = ["ffmpeg", "-y", "-i", i, "-vn", "-codec:a", "aac", "-b:a", "192k", o])
    ∧ (∀ i o : String, buildCmd i o "aac" "中等质量 (128 kbps)"
      = ["ffmpeg", "-y", "-i", i, "-vn", "-codec:a", "aac", "-b:a", "128k", o])
    ∧ (∀ i o : String, buildCmd i o "aac" "低质量 (64 kbps)"
      = ["ffmpeg", "-y", "-i", i, "-vn", "-codec:a", "aac", "-b:a", "64k", o])
    ∧ (∀ i o : String, buildCmd i o "wma" "高质量 (192 kbps)"
      = ["ffmpeg", "-y", "-i", i, "-vn", "-codec:a", "wmav2", "-b:a", "192k", o])
    ∧ (∀ i o : String, buildCmd i o "wma" "中等质量 (128 kbps)"
      = ["ffmpeg", "-y", "-i", i, "-vn", "-codec:a", "wmav2", "-b:a", "128k", o])
    ∧ (∀ i o : String, buildCmd i o "wma" "低质量 (64 kbps)"
      = ["ffmpeg", "-y", "-i", i, "-vn", "-codec:a", "wmav2", "-b:a", "64k", o])
    ∧ (∀ i o : String, buildCmd i o "m4a" "高质量 (256 kbps)"
      = ["ffmpeg", "-y", "-i", i, "-vn", "-vn", "-f", "mov", "-codec:a", "aac", "-b:a", "256k", o])
    ∧ (∀ i o : String, buildCmd i o "m4a" "中等质量 (192 kbps)"
      = ["ffmpeg", "-y", "-i", i, "-vn", "-vn", "-f", "mov", "-codec:a", "aac", "-b:a", "192k", o])
    ∧ (∀ i o : String, buildCmd i o "m4a" "低质量 (128 kbps)"
      = ["ffmpeg", "-y", "-i", i, "-vn", "-vn", "-f", "mov", "-codec:a", "aac", "-b:a", "128k", o])
    ∧ (∀ i o : String, buildCmd i o "ogg" "高质量 (256 kbps)"
      = ["ffmpeg", "-y", "-i", i, "-vn", "-codec:a", "libvorbis", "-b:a", "256k", o])
    ∧ (∀ i o : String, buildCmd i o "ogg" "中等质量 (192 kbps)"
      = ["ffmpeg", "-y", "-i", i, "-vn", "-codec:a", "libvorbis", "-b:a", "192k", o])
    ∧ (∀ i o : String, buildCmd i o "ogg" "低质量 (128 kbps)"
      = ["ffmpeg", "-y", "-i", i, "-vn", "-codec:a", "libvorbis", "-b:a", "128k", o])
    ∧ (∀ i o : String, buildCmd i o "flac" "无损 (原始音质)"
      = ["ffmpeg", "-y", "-i", i, "-vn", "-codec:a", "flac", o])
    ∧ (∀ i o : String, buildCmd i o "flac" "高质量 (48kHz)"
      = ["ffmpeg", "-y", "-i", i, "-vn", "-codec:a", "flac", "-ar", "48000", o])
    ∧ (∀ i o : String, buildCmd i o "flac" "标准质量 (44.1kHz)"
      = ["ffmpeg", "-y", "-i", i, "-vn", "-codec:a", "flac", "-ar", "44100", o])
    ∧ (∀ i o : String, buildCmd i o "wav" "无损 (原始音质)"
      = ["ffmpeg", "-y", "-i", i, "-vn", "-codec:a", "pcm_s16le", o])
    ∧ (∀ i o : String, buildCmd i o "wav" "高质量 (48kHz)"
      = ["ffmpeg", "-y", "-i", i, "-vn", "-codec:a", "pcm_s16le", "-ar", "48000", o])
    ∧ (∀ i o : String, buildCmd i o "wav" "标准质量 (44.1kHz)"
      = ["ffmpeg", "-y", "-i", i, "-vn", "-codec:a", "pcm_s16le", "-ar", "44100", o]) :=
  ⟨fun _ _ => rfl, fun _ _ => rfl, fun _ _ => rfl, fun _ _ => rfl, fun _ _ => rfl,
   fun _ _ => rfl, fun _ _ => rfl, fun _ _ => rfl, fun _ _ => rfl, fun _ _ => rfl,
   fun _ _ => rfl, fun _ _ => rfl, fun _ _ => rfl, fun _ _ => rfl, fun _ _ => rfl,
   fun _ _ => rfl, fun _ _ => rfl, fun _ _ => rfl, fun _ _ => rfl, fun _ _ => rfl,
   fun _ _ => rfl⟩

/-- C5: for every input path, output file, format and tier, the built argv
begins with the encoder invocation `ffmpeg`, the force-overwrite flag `-y`,
the input-file flag `-i` with the input path, and the strip-video-stream flag
`-vn`, in that order; and for m4a the argv additionally forces the container
explicitly with `-f mov`. -/
theorem c5_argv_head :
    (∀ i o fmt q : String, (buildCmd i o fmt q).take 5 = ["ffmpeg", "-y", "-i", i, "-vn"])
    ∧ (∀ i o q : String, ["-f", "mov"] <:+: buildCmd i o "m4a" q) := by
  constructor
  · intro i o fmt q
    rfl
  · intro i o q
    refine ⟨["ffmpeg", "-y", "-i", i, "-vn", "-vn"],
      "-codec:a" :: "aac" ::
        ((if hasSub "高质量" q then ["-b:a", "256k"]
          else if hasSub "中等质量" q then ["-b:a", "192k"]
          else ["-b:a", "128k"]) ++ [o]), ?_⟩
    simp [buildCmd, formatArgs]

/-- C2: for every batch run, every attempted job receives exactly one record,
records appear in input-list order and are each determined by that job's file
alone (so a per-job failure never aborts the run), and when the cancellation
flag is observed at iteration `cancelAfter` exactly the first `cancelAfter`
jobs are attempted: the record list is the image of `files.take cancelAfter`,
of length `min cancelAfter files.length`, and the remaining jobs produce no
record. -/
theorem c2_batch_outcomes (convert : String → Bool × String) (removeOk : String → Bool)
    (deleteOriginal : Bool) (cancelAfter : Nat) (files : List String) :
    (conversion_worker convert removeOk deleteOriginal cancelAfter files).1
      = (files.take cancelAfter).map (jobRecord convert removeOk deleteOriginal)
    ∧ ((conversion_worker convert removeOk deleteOriginal cancelAfter files).1).length
      = min cancelAfter files.length := by
  have h := workerLoop_records convert removeOk deleteOriginal files.length cancelAfter files 0
  rw [Nat.sub_zero] at h
  refine ⟨h, ?_⟩
  simp only [conversion_worker] at h ⊢
  rw [h, List.length_map, List.length_take]

/-- C9: for every uncancelled batch run over N files, the progress percentage
emitted after job i is 100 × (i+1)/N; in particular, for the two-file run with
a stub encoder that always exits 0, the progress events are 50 then 100 and
both jobs yield Success with their output paths, in input order.  Percentages
are modelled in ℚ; the concrete values 50 and 100 are exactly representable,
so no floating-point rounding is observable here. -/
theorem c9_progress :
    (∀ (convert : String → Bool × String) (removeOk : String → Bool)
      (deleteOriginal : Bool) (files : List String),
      (conversion_worker convert removeOk deleteOriginal files.length files).2
        = (List.range files.length).map
            (fun i => 100 * ((i + 1 : ℕ) : ℚ) / (files.length : ℚ)))
    ∧ (conversion_worker stubConvert (fun _ => true) false 2 ["a.wav", "b.wav"]).2 = [50, 100]
    ∧ (conversion_worker stubConvert (fun _ => true) false 2 ["a.wav", "b.wav"]).1.map
        (fun r => (r.ok, r.message)) = [(true, "out/a.mp3"), (true, "out/b.mp3")] := by
  refine ⟨?_, ?_, by decide⟩
  · intro convert removeOk deleteOriginal files
    have h := workerLoop_progress convert removeOk deleteOriginal
      files.length files.length files 0
    rw [Nat.sub_zero, min_self] at h
    simp only [conversion_worker]
    rw [h]
    refine List.map_congr_left (fun j _ => ?_)
    push_cast
    ring
  · simp [conversion_worker, workerLoop, jobRecord, stubConvert]
    norm_num

/-- C7: job outcomes and the success tally are unchanged by the behaviour of
source-file removal (a failed `os.remove` is recorded as a logged warning in
the job record, never flips the outcome); and for every attempted job that
succeeds with the delete-source flag set, the driver does attempt the removal,
recording `some false` (the logged `删除原文件失败` warning) when it fails while
the record still carries `ok = true`. -/
theorem c7_delete_source (convert : String → Bool × String)
    (removeOk removeOk' : String → Bool) (deleteOriginal : Bool)
    (cancelAfter : Nat) (files : List String) :
    ((conversion_worker convert removeOk deleteOriginal cancelAfter files).1.map
        (fun r => (r.ok, r.message))
      = (conversion_worker convert removeOk' deleteOriginal cancelAfter files).1.map
        (fun r => (r.ok, r.message)))
    ∧ (convertedCount (conversion_worker convert removeOk deleteOriginal cancelAfter files).1
      = convertedCount (conversion_worker convert removeOk' deleteOriginal cancelAfter files).1)
    ∧ (∀ f ∈ files.take cancelAfter, (convert f).1 = true → removeOk f = false →
        ({ file := f, ok := true, message := (convert f).2, removalOutcome := some false }
            : JobRecord)
          ∈ (conversion_worker convert removeOk true cancelAfter files).1) := by
  have h := workerLoop_records convert removeOk deleteOriginal files.length cancelAfter files 0
  have h' := workerLoop_records convert removeOk' deleteOriginal files.length cancelAfter files 0
  rw [Nat.sub_zero] at h h'
  refine ⟨?_, ?_, ?_⟩
  · simp only [conversion_worker] at h h' ⊢
    rw [h, h', List.map_map, List.map_map]
    rfl
  · simp only [conversion_worker] at h h' ⊢
    rw [convertedCount, convertedCount, h, h']
    rw [List.filter_map, List.filter_map, List.length_map, List.length_map]
    rfl
  · intro f hf hok hrm
    have ht := workerLoop_records convert removeOk true files.length cancelAfter files 0
    rw [Nat.sub_zero] at ht
    simp only [conversion_worker]
    rw [ht]
    have : jobRecord convert removeOk true f
        = { file := f, ok := true, message := (convert f).2, removalOutcome := some false } := by
      simp [jobRecord, hok, hrm]
    rw [← this]
    exact List.mem_map_of_mem _ hf

/-- C8: every single-file conversion invokes the external encoder with a
wall-clock timeout of 300 seconds; exit code 0 yields Success carrying the
resolved output path; exceeding the timeout yields the Timeout message; and a
failure to start the process or any other unexpected exception yields the
UnexpectedError message carrying the exception text. -/
theorem c8_invocation (proc : EncoderInvocation → ProcResult)
    (outputDir outputFormat quality inputFile : String) :
    (invocationOf outputDir outputFormat quality inputFile).timeoutSeconds = 300
    ∧ (∀ e : String,
        proc (invocationOf outputDir outputFormat quality inputFile) = ProcResult.exited 0 e →
        convert_file proc outputDir outputFormat quality inputFile
          = (true, resolvedOutput outputDir inputFile outputFormat))
    ∧ (proc (invocationOf outputDir outputFormat quality inputFile) = ProcResult.timedOut →
        convert_file proc outputDir outputFormat quality inputFile
          = (false, renderReason FailReason.timeout))
    ∧ (∀ m : String,
        proc (invocationOf outputDir outputFormat quality inputFile) = ProcResult.raised m →
        convert_file proc outputDir outputFormat quality inputFile
          = (false, renderReason (FailReason.unexpectedError m))) := by
  refine ⟨rfl, ?_, ?_, ?_⟩
  · intro e hp
    rw [convert_file, hp]
    rfl
  · intro hp
    rw [convert_file, hp]
    rfl
  · intro m hp
    rw [convert_file, hp]
    rfl

/-- Witness for C8 at concrete inputs: a stub exit-0 run, a stub timeout and a
stub start failure. -/
theorem c8_invocation_witness :
    convert_file (fun _ => ProcResult.exited 0 "") "out" "mp3" "高质量 (192 kbps)" "a.wav"
      = (true, "out/a.mp3")
    ∧ convert_file (fun _ => ProcResult.timedOut) "out" "mp3" "高质量 (192 kbps)" "a.wav"
      = (false, "转换超时")
    ∧ convert_file (fun _ => ProcResult.raised "boom") "out" "mp3" "高质量 (192 kbps)" "a.wav"
      = (false, "错误: boom") :=
  ⟨((c8_invocation (fun _ => ProcResult.exited 0 "") "out" "mp3" "高质量 (192 kbps)"
      "a.wav").2.1 "" rfl).trans (by decide),
   ((c8_invocation (fun _ => ProcResult.timedOut) "out" "mp3" "高质量 (192 kbps)"
      "a.wav").2.2.1 rfl).trans (by decide),
   ((c8_invocation (fun _ => ProcResult.raised "boom") "out" "mp3" "高质量 (192 kbps)"
      "a.wav").2.2.2 "boom" rfl).trans (by decide)⟩

/-- Witness for C7 at a concrete run: one successful job with the
delete-source flag set and a removal stub that always fails still appears in
the records as a Success carrying its output path, with the failed removal
attempt recorded. -/
theorem c7_delete_source_witness :
    ({ file := "a.wav", ok := true, message := "out/a.mp3", removalOutcome := some false }
        : JobRecord)
      ∈ (conversion_worker stubConvert (fun _ => false) true 1 ["a.wav"]).1 :=
  (c7_delete_source stubConvert (fun _ => false) (fun _ => true) true 1 ["a.wav"]).2.2
    "a.wav" (by decide) (by decide) rfl

/-- Counterexample to C1 as stated: an encoder run that exits 1 with stderr
consisting of a single space.  No classification rule matches, so the claim
demands UnknownFailure carrying the last non-empty stderr line — but no
non-empty line exists: the selection `[l for l in ... if l.strip()][-1]`
raises `IndexError`, the generic handler catches it, and the job is reported
with the UnexpectedError message `错误: list index out of range`, which does
not even contain the UnknownFailure marker `转换失败`. -/
theorem c1_counterexample :
    convert_file (fun _ => ProcResult.exited 1 " ") "out" "mp3" "高质量 (192 kbps)" "a.wav"
      = (false, "错误: list index out of range")
    ∧ listContains "转换失败".data "错误: list index out of range".data = false := by
  constructor
  · decide
  · decide

/-- C1 (amended): for every encoder invocation that exits with a nonzero code,
the failure message is the rendering of the first-match-wins rule list of
§4.3 over the captured stderr — InvalidInputData on substring `Invalid data`,
else PermissionDenied on `Permission denied`, else DiskFull on `No space
left`, else, if stderr contains `Error`, EncoderError carrying the first
(stripped) stderr line that contains `Error` and does not mention `ffmpeg`
case-insensitively (amended: when no such line exists the payload falls back
to the last stderr line), otherwise UnknownFailure carrying the last
non-empty stderr line (amended: empty stderr yields the fixed payload
`未知错误`, and nonempty all-whitespace stderr escapes the classifier as an
IndexError, so the job is reported as UnexpectedError instead). -/
theorem c1_classification (proc : EncoderInvocation → ProcResult)
    (outputDir outputFormat quality inputFile : String) (code : Int) (e : String)
    (hp : proc (invocationOf outputDir outputFormat quality inputFile)
      = ProcResult.exited code e)
    (hc : code ≠ 0) :
    convert_file proc outputDir outputFormat quality inputFile
      = (false, renderReason (specClassifyStderr e)) := by
  rw [convert_file, hp]
  simp only [if_neg hc]
  rw [← classify_renders e]
  cases classifyError e with
  | some msg => rfl
  | none => rfl

/-- Witness for C1 (amended) at the spec's own acceptance example: a stub
encoder that writes `Permission denied` to stderr and exits 1 produces the
PermissionDenied outcome. -/
theorem c1_classification_witness :
    convert_file (fun _ => ProcResult.exited 1 "Permission denied") "out" "mp3"
      "高质量 (192 kbps)" "a.wav"
      = (false, renderReason (specClassifyStderr "Permission denied"))
    ∧ renderReason (specClassifyStderr "Permission denied") = "权限被拒绝，无法写入文件" :=
  ⟨c1_classification (fun _ => ProcResult.exited 1 "Permission denied") "out" "mp3"
      "高质量 (192 kbps)" "a.wav" 1 "Permission denied" rfl (by decide),
   by decide⟩

/-- Counterexample to C4 as stated: mp3 with the lossless tier label — a tier
not in mp3's tier set — is not rejected with UnsupportedTierForFormat; the
builder produces a perfectly normal argv, identical to the one for mp3's low
tier (the final else branch). -/
theorem c4_counterexample :
    buildCmd "a.wav" "out/a.mp3" "mp3" "无损 (原始音质)"
      = ["ffmpeg", "-y", "-i", "a.wav", "-vn", "-codec:a", "libmp3lame", "-b:a", "64k",
         "out/a.mp3"]
    ∧ buildCmd "a.wav" "out/a.mp3" "mp3" "无损 (原始音质)"
      = buildCmd "a.wav" "out/a.mp3" "mp3" "低质量 (64 kbps)" := by
  constructor
  · decide
  · decide

/-- C4 (amended): the code performs no tier validation — there is no
UnsupportedTierForFormat failure.  For every supported format and every GUI
tier label outside that format's tier set, the builder silently falls through
its substring branches and produces the same quality arguments as some tier
that is in the format's set. -/
theorem c4_no_tier_validation :
    ∀ fmt ∈ supportedFormats, ∀ q ∈ tierVocab, q ∉ formatTiers fmt →
      ∃ q' ∈ formatTiers fmt, formatArgs fmt q = formatArgs fmt q' := by
  decide

/-- Witness for C4 (amended): the lossless label, off-set for mp3, behaves as
mp3's low tier. -/
theorem c4_no_tier_validation_witness :
    ∃ q' ∈ formatTiers "mp3", formatArgs "mp3" "无损 (原始音质)" = formatArgs "mp3" q' :=
  c4_no_tier_validation "mp3" (by decide) "无损 (原始音质)" (by decide) (by decide)

/-- C6: for every input path, the resolved output path is the output
directory, a path separator, the input file's stem, a dot and the target
format's extension, concatenated in that order (for the app's output
directory, which is nonempty and has no trailing separator); consequently two
inputs with the same stem resolve to the identical output path, and the argv
always carries the force-overwrite flag `-y`, so the later job silently
overwrites the earlier with no collision error or warning anywhere in the
builder or the worker. -/
theorem c6_output_path :
    (∀ outputDir inputFile outputFormat : String,
      outputDir.data ≠ [] → outputDir.data.getLast? ≠ some '/' →
      resolvedOutput outputDir inputFile outputFormat
        = String.mk (outputDir.data ++ '/' :: (pyStem inputFile.data ++ '.' :: outputFormat.data)))
    ∧ (∀ outputDir in1 in2 outputFormat : String,
      pyStem in1.data = pyStem in2.data →
      resolvedOutput outputDir in1 outputFormat = resolvedOutput outputDir in2 outputFormat)
    ∧ (∀ i o fmt q : String, "-y" ∈ buildCmd i o fmt q) := by
  refine ⟨?_, ?_, ?_⟩
  · intro outputDir inputFile outputFormat h1 h2
    rw [resolvedOutput,
      osPathJoin_eq _ _ h1 h2 (stemDot_head inputFile.data outputFormat.data)]
  · intro outputDir in1 in2 outputFormat hstem
    rw [resolvedOutput, resolvedOutput, hstem]
  · intro i o fmt q
    rw [buildCmd]
    simp

/-- Witness for C6 at concrete inputs: the stem of `a/b.wav` is `b`, two
different inputs with stem `b` collide on the same output path, and the
collision path is exactly `out/b.mp3`. -/
theorem c6_output_path_witness :
    resolvedOutput "out" "a/b.wav" "mp3" = "out/b.mp3"
    ∧ resolvedOutput "out" "a/b.wav" "mp3" = resolvedOutput "out" "c/b.flac" "mp3" :=
  ⟨(c6_output_path.1 "out" "a/b.wav" "mp3" (by decide) (by decide)).trans (by decide),
   c6_output_path.2.1 "out" "a/b.wav" "c/b.flac" "mp3" (by decide)⟩

/-- C10: the UnknownFailure classifier is not total.  For the nonzero-exit
result whose stderr is the non-empty all-whitespace string `" \n "` (which
contains none of the classified substrings), the list of non-empty stderr
lines is empty, so the `[-1]` selection of the UnknownFailure branch raises
`IndexError`; the classifier is modelled as returning `none` there, the
generic exception handler catches the error, and the job is classified as
UnexpectedError (message `错误: list index out of range`) rather than
UnknownFailure. -/
theorem c10_unknown_failure_partial :
    ((splitOnChar '\n' " \n ".data).filter (fun l => !(pyStripL l).isEmpty)) = []
    ∧ classifyError " \n " = none
    ∧ convert_file (fun _ => ProcResult.exited 1 " \n ") "out" "mp3" "高质量 (192 kbps)" "a.wav"
      = (false, "错误: list index out of range") := by
  refine ⟨by decide, by decide, by decide⟩
